import Mathlib

/-! # Contact form pipeline: `app/routes/($locale).contact.jsx`

A shallow embedding of the two halves of the contact route:

* the server-side relay handler `action` (lines 10-55), with its collaborators
  (`getFormikKeys`, `request.formData()`, the provider `fetch`, the body readers
  `response.json()` / `response.text()`) passed in as explicit results that may
  be a value or a thrown error;
* the client-side form of `Contact` (lines 57-102): the validation schema, the
  `onSubmit` callback and the `setTimeout` queue it feeds.

JavaScript values are modelled as follows: `undefined` is `none`, a thrown
exception is `Except.error`, strings are Lean strings, and a parsed JSON body is
a `JsonValue` tree.
-/

namespace Contact

/-! ## JavaScript values -/

/-- A thrown JavaScript `Error`; the handlers only ever read its `message`. -/
structure JsError where
  message : String
  deriving DecidableEq, Repr

/-- A value produced by `JSON.parse`. A number is carried as the text that
`Number.prototype.toString` prints for it, which identifies the number and is all
the handler observes of it. -/
inductive JsonValue where
  | null
  | bool (b : Bool)
  | num (text : String)
  | str (s : String)
  | arr (items : List JsonValue)
  | obj (fields : List (String × JsonValue))

/-- ToBoolean, as applied by the `||` operator. -/
def JsonValue.truthy : JsonValue → Bool
  | .null => false
  | .bool b => b
  | .num text => text != "0"
  | .str s => s != ""
  | .arr _ => true
  | .obj _ => true

mutual
/-- ToString, as applied by `new Error(message)` to its argument. -/
def JsonValue.toStr : JsonValue → String
  | .null => "null"
  | .bool b => if b then "true" else "false"
  | .num text => text
  | .str s => s
  | .arr items => JsonValue.joinItems items
  | .obj _ => "[object Object]"
/-- The comma join of `Array.prototype.toString`; a `null` element prints as the
empty string. -/
def JsonValue.joinItems : List JsonValue → String
  | [] => ""
  | [.null] => ""
  | [x] => x.toStr
  | .null :: y :: rest => "," ++ JsonValue.joinItems (y :: rest)
  | x :: y :: rest => x.toStr ++ "," ++ JsonValue.joinItems (y :: rest)
end

/-- The method `String.prototype.includes`: `includes s t` is `s.includes(t)`. -/
def includes (s t : String) : Bool :=
  decide (t.data <:+: s.data)

/-- The `TypeError` raised when a property is read from `null`, with the wording of
the V8 engine; the handlers pass the message on and never inspect it. -/
def nullPropertyError (property : String) : JsError :=
  ⟨"Cannot read properties of null (reading \x27" ++ property ++ "\x27)"⟩

/-- The expression `new Error(message)`. -/
def newError (message : JsonValue) : JsError :=
  ⟨message.toStr⟩

/-! ## The relay handler `action` -/

/-- The object returned by `getFormikKeys(context)`, of which `action` reads three
properties; an unset identifier is `undefined`. The function lives in `lib/utils`
and is a parameter of `action` here. -/
structure FormikKeys where
  SERVICE_ID : Option String
  TEMPLATE_ID : Option String
  PUBLIC_KEY : Option String
  deriving DecidableEq, Repr

/-- The entries of a `FormData`, in iteration order. -/
abbrev FormDataEntries := List (String × String)

/-- A plain object holding string properties. -/
abbrev JsObject := List (String × String)

/-- Property assignment `o[k] = v`: an existing property is overwritten in place, a
new one is appended. -/
def JsObject.set : JsObject → String → String → JsObject
  | [], k, v => [(k, v)]
  | (k', v') :: rest, k, v =>
    if k' = k then (k, v) :: rest else (k', v') :: JsObject.set rest k v

/-- Property read `o[k]`, `undefined` when the property is missing. -/
def JsObject.get : JsObject → String → Option String
  | [], _ => none
  | (k', v') :: rest, k => if k' = k then some v' else JsObject.get rest k

/-- The builtin `Object.fromEntries(iterable)`: every entry is assigned in iteration
order onto a fresh object. -/
def Object.fromEntries (entries : FormDataEntries) : JsObject :=
  entries.foldl (fun o kv => o.set kv.1 kv.2) []

/-- The `template_params` literal of lines 20-24. -/
structure TemplateParams where
  user_name : Option String
  user_email : Option String
  message : Option String
  deriving DecidableEq, Repr

/-- The `payload` literal of lines 16-25. -/
structure Payload where
  service_id : Option String
  template_id : Option String
  user_id : Option String
  template_params : TemplateParams
  deriving DecidableEq, Repr

/-- One property of a serialised object: `JSON.stringify` leaves out a property
whose value is `undefined`. -/
def jsonField (key : String) (value : Option String) : List (String × JsonValue) :=
  match value with
  | none => []
  | some s => [(key, JsonValue.str s)]

/-- The call `JSON.stringify(payload)`; the serialised text is represented by the
JSON document it denotes. -/
def JSON.stringify (payload : Payload) : JsonValue :=
  .obj (jsonField "service_id" payload.service_id
    ++ jsonField "template_id" payload.template_id
    ++ jsonField "user_id" payload.user_id
    ++ [("template_params",
          .obj (jsonField "user_name" payload.template_params.user_name
            ++ jsonField "user_email" payload.template_params.user_email
            ++ jsonField "message" payload.template_params.message))])

/-- One outbound `fetch(url, init)` call. -/
structure FetchCall where
  url : String
  method : String
  headers : List (String × String)
  body : JsonValue

/-- The provider's `Response`, as far as `action` looks at it: `ok`, the value of
`headers.get(content-type)` (`none` for `null`), and what the two body readers
`json()` and `text()` produce when awaited. -/
structure Response where
  ok : Bool
  contentType : Option String
  json : Except JsError JsonValue
  text : Except JsError String

/-- The envelope handed to `json(...)`. -/
structure Envelope where
  success : Bool
  response : Option JsonValue
  error : Option String

/-- The result of `json(data, init)`: the status of `init` and the data. -/
structure HttpResult where
  status : Nat
  data : Envelope

/-- The helper `json(data, init)` of the framework, with `init` a status. -/
def json (data : Envelope) (status : Nat) : HttpResult :=
  ⟨status, data⟩

/-- What one invocation of `action` did: the provider calls it issued, and how it
ended (`Except.error` is an exception that left the handler). -/
structure ActionRun where
  calls : List FetchCall
  outcome : Except JsError HttpResult

/-- The conditional of lines 42-44 and 47-49:
`contentType.includes(application/json) ? await response.json() : await response.text()`.
Reading `includes` off a `null` content type raises a `TypeError`. -/
def readBody (contentType : Option String) (response : Response) : Except JsError JsonValue :=
  match contentType with
  | none => .error (nullPropertyError "includes")
  | some ct =>
    if includes ct "application/json" then response.json
    else response.text.map JsonValue.str

/-- The payload built at lines 16-25. -/
def buildPayload (formikKeys : FormikKeys) (values : JsObject) : Payload :=
  { service_id := formikKeys.SERVICE_ID
    template_id := formikKeys.TEMPLATE_ID
    user_id := formikKeys.PUBLIC_KEY
    template_params :=
      { user_name := values.get "user_name"
        user_email := values.get "user_email"
        message := values.get "message" } }

/-- The `fetch` call of lines 27-36. -/
def providerCall (payload : Payload) : FetchCall :=
  { url := "https://api.emailjs.com/api/v1.0/email/send"
    method := "POST"
    headers := [("Content-Type", "application/json")]
    body := JSON.stringify payload }

/-- The body of the `try` block, lines 37-51, from the awaited `fetch` result on. -/
def guarded (fetched : Except JsError Response) : Except JsError HttpResult :=
  match fetched with
  | .error e => .error e
  | .ok response =>
    let contentType := response.contentType
    if response.ok then
      match readBody contentType response with
      | .error e => .error e
      | .ok responseData =>
        .ok (json { success := true, response := some responseData, error := none } 200)
    else
      match readBody contentType response with
      | .error e => .error e
      | .ok errorData =>
        .error (newError (if errorData.truthy then errorData else .str "Failed to send email"))

/-- The handler `action`, lines 10-55. The two awaits of lines
11-12 stand before the `try`; the `catch` of lines 52-54 turns whatever the `try`
block throws into the failure envelope. -/
def action (getFormikKeys : Except JsError FormikKeys)
    (formData : Except JsError FormDataEntries)
    (fetch : FetchCall → Except JsError Response) : ActionRun :=
  match getFormikKeys with
  | .error e => ⟨[], .error e⟩
  | .ok formikKeys =>
    match formData with
    | .error e => ⟨[], .error e⟩
    | .ok entries =>
      let values := Object.fromEntries entries
      let payload := buildPayload formikKeys values
      let call := providerCall payload
      match guarded (fetch call) with
      | .ok result => ⟨[call], .ok result⟩
      | .error error =>
        ⟨[call],
          .ok (json { success := false, response := none, error := some error.message } 500)⟩

/-- The value of the first entry of `entries` whose key is `key`. -/
def firstOccurrence (key : String) : FormDataEntries → Option String
  | [] => none
  | (k, v) :: rest => if k = key then some v else firstOccurrence key rest

/-- The value of the last entry of `entries` whose key is `key`. -/
def lastOccurrence (key : String) : FormDataEntries → Option String
  | [] => none
  | (k, v) :: rest =>
    match lastOccurrence key rest with
    | some w => some w
    | none => if k = key then some v else none

/-- The success envelope of line 45. -/
def successResult (responseData : JsonValue) : HttpResult :=
  ⟨200, { success := true, response := some responseData, error := none }⟩

/-- The failure envelope of line 53. -/
def failureResult (message : String) : HttpResult :=
  ⟨500, { success := false, response := none, error := some message }⟩

/-! ## Regular expressions

The pattern handed to `matches` uses concatenation, alternation, repetition and
character classes only, so `RegExp.prototype.test` on it is membership in a regular
language, decided here by derivatives. A string is its list of characters; a
character outside the basic plane, which JavaScript sees as two surrogate code units,
is accepted by the same classes of the pattern (the negated class and the wildcard) as
each of its surrogates, so the two readings accept the same strings. -/

/-- A regular expression over characters. -/
inductive RegExp where
  | never
  | eps
  | cls (p : Char → Bool)
  | alt (r s : RegExp)
  | seq (r s : RegExp)
  | star (r : RegExp)

namespace RegExp

/-- Whether the expression accepts the empty string. -/
def nullable : RegExp → Bool
  | never => false
  | eps => true
  | cls _ => false
  | alt r s => nullable r || nullable s
  | seq r s => nullable r && nullable s
  | star _ => true

/-- The expression accepting what is left of a match once `c` has been read. -/
def deriv (c : Char) : RegExp → RegExp
  | never => never
  | eps => never
  | cls p => if p c then eps else never
  | alt r s => alt (deriv c r) (deriv c s)
  | seq r s => if nullable r then alt (seq (deriv c r) s) (deriv c s) else seq (deriv c r) s
  | star r => seq (deriv c r) (star r)

/-- Whole-string match, the meaning of a pattern written between `^` and `$`. -/
def test (r : RegExp) : List Char → Bool
  | [] => nullable r
  | c :: cs => test (deriv c r) cs

/-- The quantifier `r+`. -/
def plus1 (r : RegExp) : RegExp := seq r (star r)

/-- The quantifier `r{2,}`. -/
def atLeast2 (r : RegExp) : RegExp := seq r (seq r (star r))

/-- The quantifier `r{1,3}`. -/
def upTo3 (r : RegExp) : RegExp := seq r (alt eps (seq r (alt eps r)))

/-- A single literal character, given by its code point. -/
def lit (n : Nat) : RegExp := cls (fun c => c.toNat == n)

/-- The language of an expression. -/
inductive Matches : RegExp → List Char → Prop where
  | eps : Matches eps []
  | cls (p : Char → Bool) (c : Char) : p c = true → Matches (cls p) [c]
  | altL (r s : RegExp) (w : List Char) : Matches r w → Matches (alt r s) w
  | altR (r s : RegExp) (w : List Char) : Matches s w → Matches (alt r s) w
  | seq (r s : RegExp) (u v : List Char) :
      Matches r u → Matches s v → Matches (seq r s) (u ++ v)
  | starNil (r : RegExp) : Matches (star r) []
  | starCons (r : RegExp) (u v : List Char) :
      Matches r u → Matches (star r) v → Matches (star r) (u ++ v)

end RegExp

/-! ## The email pattern of line 73 -/

/-- The class `\s`: the white space and line terminator code points. -/
def isWhiteSpace (c : Char) : Bool :=
  [9, 10, 11, 12, 13, 32, 0xA0, 0x1680, 0x2028, 0x2029, 0x202F, 0x205F, 0x3000, 0xFEFF].contains
      c.toNat
    || (0x2000 ≤ c.toNat && c.toNat ≤ 0x200A)

/-- The class `[^<>()\[\]\\.,;:\s@"]`; the listed code points are, in order,
`<`, `>`, `(`, `)`, `[`, `]`, backslash, `.`, `,`, `;`, `:`, `@` and the double quote. -/
def atomChar (c : Char) : Bool :=
  !([60, 62, 40, 41, 91, 93, 92, 46, 44, 59, 58, 64, 34].contains c.toNat || isWhiteSpace c)

/-- The wildcard `.`: every character but the four line terminators. -/
def anyChar (c : Char) : Bool :=
  !([10, 13, 0x2028, 0x2029].contains c.toNat)

/-- The class `[0-9]`. -/
def digit (c : Char) : Bool :=
  48 ≤ c.toNat && c.toNat ≤ 57

/-- The class `[a-zA-Z]`. -/
def letter (c : Char) : Bool :=
  (97 ≤ c.toNat && c.toNat ≤ 122) || (65 ≤ c.toNat && c.toNat ≤ 90)

/-- The class `[a-zA-Z\-0-9]`; 45 is the hyphen. -/
def labelChar (c : Char) : Bool :=
  letter c || c.toNat == 45 || digit c

open RegExp in
/-- The first group, `([^...]+(\.[^...]+)*)|(".+")`: dot-separated atoms, or a quoted
string. 46 is the dot, 34 the double quote. -/
def localPart : RegExp :=
  alt (seq (plus1 (cls atomChar)) (star (seq (lit 46) (plus1 (cls atomChar)))))
    (seq (lit 34) (seq (plus1 (cls anyChar)) (lit 34)))

open RegExp in
/-- The group `\[[0-9]{1,3}\.[0-9]{1,3}\.[0-9]{1,3}\.[0-9]{1,3}]`; 91 and 93 are the
square brackets. -/
def ipLiteral : RegExp :=
  seq (lit 91) (seq (upTo3 (cls digit)) (seq (lit 46) (seq (upTo3 (cls digit)) (seq (lit 46)
    (seq (upTo3 (cls digit)) (seq (lit 46) (seq (upTo3 (cls digit)) (lit 93))))))))

open RegExp in
/-- The group `([a-zA-Z\-0-9]+\.)+[a-zA-Z]{2,}`. -/
def domainName : RegExp :=
  seq (plus1 (seq (plus1 (cls labelChar)) (lit 46))) (atLeast2 (cls letter))

open RegExp in
/-- The whole pattern `^(local)@(ip|domain)$`; 64 is the at sign. -/
def emailPattern : RegExp :=
  seq localPart (seq (lit 64) (alt ipLiteral domainName))

/-- A string that is not empty and whose last character is not the at sign. -/
def EndsOffAt (w : List Char) : Prop :=
  ∃ init c, w = init ++ [c] ∧ c.toNat ≠ 64

/-! ## The validation schema of `Contact`

Formik runs the Yup schema with `abortEarly: false`, after replacing every empty
string value by `undefined`, and keeps the first message reported for each field. A
Yup string schema is the list of its tests in the order of the chained calls. -/

/-- One test of a Yup schema: its message, and whether a value passes. -/
structure YupTest where
  message : String
  test : Option String → Bool

/-- The test `required(message)` of a string schema: the value is present and not
empty. -/
def Yup.required (message : String) : YupTest :=
  { message := message
    test := fun value =>
      match value with
      | none => false
      | some s => s.length != 0 }

/-- The test `matches(regex, message)`: an absent value passes, a present one is
searched for the pattern. -/
def Yup.matches (regex : RegExp) (message : String) : YupTest :=
  { message := message
    test := fun value =>
      match value with
      | none => true
      | some s => regex.test s.data }

/-- The test `email(message)`: `matches` against the pattern `rEmail` that the
library ships, with the empty string let through. The library is not part of the
repository, so its pattern is a parameter. -/
def Yup.email (rEmail : String → Bool) (message : String) : YupTest :=
  { message := message
    test := fun value =>
      match value with
      | none => true
      | some s => s == "" || rEmail s }

/-- The messages of the tests that `value` fails, in schema order. -/
def Yup.validate (schema : List YupTest) (value : Option String) : List String :=
  (schema.filter (fun t => !t.test value)).map (fun t => t.message)

/-- The form values, `initialValues` of lines 62-66 giving their shape. -/
structure FormValues where
  user_name : String
  user_email : String
  message : String
  deriving DecidableEq, Repr

/-- The `initialValues` of lines 62-66. -/
def initialValues : FormValues :=
  { user_name := "", user_email := "", message := "" }

/-- The object `formik.errors`: a message for each field that has one. -/
structure FieldErrors where
  user_name : Option String
  user_email : Option String
  message : Option String
  deriving DecidableEq, Repr

/-- The schema for `user_name`, line 68. -/
def userNameSchema : List YupTest :=
  [Yup.required "* Name field is required"]

/-- The schema for `user_email`, lines 69-75. -/
def userEmailSchema (rEmail : String → Bool) : List YupTest :=
  [Yup.email rEmail "Invalid email address",
   Yup.required "* Email field is required",
   Yup.matches emailPattern "* Please enter a valid email address"]

/-- The schema for `message`, line 76. -/
def messageSchema : List YupTest :=
  [Yup.required "* Message field is required"]

/-- Formik's preparation of one field value: the empty string becomes `undefined`. -/
def prepareDataForValidation (value : String) : Option String :=
  if value = "" then none else some value

/-- The errors Formik derives from `validationSchema` for the given values: each
field keeps the first message its schema reports. -/
def validationSchema (rEmail : String → Bool) (values : FormValues) : FieldErrors :=
  { user_name := (Yup.validate userNameSchema (prepareDataForValidation values.user_name)).head?
    user_email :=
      (Yup.validate (userEmailSchema rEmail) (prepareDataForValidation values.user_email)).head?
    message := (Yup.validate messageSchema (prepareDataForValidation values.message)).head? }

/-- An address both checks of the email schema accept: the library pattern and the
pattern of line 73. -/
def validEmailShape (rEmail : String → Bool) (s : String) : Bool :=
  rEmail s && emailPattern.test s.data

/-! ## The component state, `onSubmit` and the timer queue -/


/-- The relay's `Response` as `onSubmit` looks at it. -/
structure RelayResponse where
  ok : Bool
  json : Except JsError JsonValue

/-- Whether the awaited `fetch` of `onSubmit` produced a response with an
HTTP-success status. -/
def httpSuccess : Except JsError RelayResponse → Bool
  | .ok response => response.ok
  | .error _ => false

/-- The state of the `Contact` component: the two `useState` cells, Formik's values
and `isSubmitting`, a millisecond clock, and the due times of the pending
`setTimeout` callbacks, every one of which is `() => setMessageSent(false)`. -/
structure ContactState where
  messageSent : Option Bool
  messageReceived : Bool
  values : FormValues
  isSubmitting : Bool
  now : Nat
  timers : List Nat
  deriving DecidableEq, Repr

/-- The state a freshly mounted component starts in: `useState(null)`,
`useState(false)` and the initial values. -/
def ContactState.initial : ContactState :=
  { messageSent := none, messageReceived := false, values := initialValues,
    isSubmitting := false, now := 0, timers := [] }

/-- The call `setTimeout(callback, delay)`. -/
def setTimeout (delay : Nat) (st : ContactState) : ContactState :=
  { st with timers := st.timers ++ [st.now + delay] }

/-- Property read `value.error` on a parsed body; reading it off `null` throws. The
last of several equal keys is the one `JSON.parse` keeps. -/
def JsonValue.error : JsonValue → Except JsError (Option JsonValue)
  | .null => .error (nullPropertyError "error")
  | .obj fields => .ok ((fields.reverse.find? (fun kv => kv.1 == "error")).map (fun kv => kv.2))
  | _ => .ok none

/-- The `try` block of `onSubmit`, lines 80-94, from the awaited `fetch` on. -/
def onSubmitTry (fetched : Except JsError RelayResponse) (st : ContactState) :
    Except JsError ContactState :=
  match fetched with
  | .error e => .error e
  | .ok response =>
    if response.ok then
      let st := { st with isSubmitting := false }
      let st := { st with messageSent := some true }
      let st := { st with messageReceived := true }
      let st := { st with values := initialValues, isSubmitting := false }
      .ok (setTimeout 5000 st)
    else
      match response.json with
      | .error e => .error e
      | .ok errorResponse =>
        match errorResponse.error with
        | .error e => .error e
        | .ok none => .error ⟨""⟩
        | .ok (some message) => .error (newError message)

/-- The callback `onSubmit`, lines 78-101, run from the point where the request
settles. -/
def onSubmit (fetched : Except JsError RelayResponse) (st : ContactState) : ContactState :=
  match onSubmitTry fetched st with
  | .ok st => st
  | .error _ =>
    let st := { st with isSubmitting := false }
    let st := { st with messageSent := some true }
    let st := { st with messageReceived := false }
    setTimeout 5000 st

/-- The timer callback `() => setMessageSent(false)`. -/
def timerCallback (st : ContactState) : ContactState :=
  { st with messageSent := some false }

/-- The passing of `dt` milliseconds: every pending timer that has come due runs its
callback and leaves the queue. -/
def advance (dt : Nat) (st : ContactState) : ContactState :=
  let now := st.now + dt
  let due := st.timers.filter (fun t => t ≤ now)
  let st := due.foldl (fun s _ => timerCallback s) st
  { st with now := now, timers := st.timers.filter (fun t => now < t) }

/-- The text of the alert, lines 205-207. -/
def alertText (st : ContactState) : String :=
  if st.messageReceived then "Message Sent" else "Failed: Please try again later"

/-- The class of the alert section, lines 189-195. -/
def alertClass (st : ContactState) : String :=
  if st.messageSent = some true then "bounceInRight"
  else if st.messageSent = some false then "bounceOutRight"
  else "opacity-0"

end Contact

/-! # Properties -/

namespace Contact

/-! ## Object construction from form entries -/

theorem JsObject.get_set (o : JsObject) (k v k' : String) :
    (o.set k v).get k' = if k = k' then some v else o.get k' := by
  induction o with
  | nil => simp [JsObject.set, JsObject.get]
  | cons hd tl ih =>
    obtain ⟨a, b⟩ := hd
    by_cases h : a = k
    · subst h
      by_cases h2 : a = k' <;> simp [JsObject.set, JsObject.get, h2]
    · by_cases h2 : a = k'
      · subst h2
        have h3 : ¬ k = a := fun h3 => h h3.symm
        simp [JsObject.set, JsObject.get, h, h3]
      · simp [JsObject.set, JsObject.get, h, h2, ih]

theorem get_foldl_set (entries : FormDataEntries) (o : JsObject) (key : String) :
    (entries.foldl (fun o kv => JsObject.set o kv.1 kv.2) o).get key =
      match lastOccurrence key entries with
      | some w => some w
      | none => o.get key := by
  induction entries generalizing o with
  | nil => simp [lastOccurrence]
  | cons hd tl ih =>
    obtain ⟨a, b⟩ := hd
    simp only [List.foldl_cons, lastOccurrence]
    rw [ih]
    cases h : lastOccurrence key tl with
    | some w => simp
    | none =>
      by_cases hk : a = key <;> simp [JsObject.get_set, hk]

theorem get_fromEntries (entries : FormDataEntries) (key : String) :
    (Object.fromEntries entries).get key = lastOccurrence key entries := by
  unfold Object.fromEntries
  rw [get_foldl_set]
  cases lastOccurrence key entries <;> simp [JsObject.get]

theorem lastOccurrence_eq_none (key : String) (entries : FormDataEntries) :
    lastOccurrence key entries = none ↔ key ∉ entries.map Prod.fst := by
  induction entries with
  | nil => simp [lastOccurrence]
  | cons hd tl ih =>
    obtain ⟨a, b⟩ := hd
    simp only [lastOccurrence, List.map_cons, List.mem_cons, not_or]
    cases h : lastOccurrence key tl with
    | some w =>
      have hmem : key ∈ tl.map Prod.fst := by
        by_contra hn
        simp [ih.mpr hn] at h
      simp only [reduceCtorEq, false_iff, not_and, not_not]
      exact fun _ => hmem
    | none =>
      have := ih.mp h
      by_cases hk : a = key
      · simp [hk]
      · have hk' : ¬ key = a := fun e => hk e.symm
        simp [hk, hk', this]

theorem lastOccurrence_of_nodup (key : String) (entries : FormDataEntries)
    (h : (entries.map Prod.fst).Nodup) :
    lastOccurrence key entries = firstOccurrence key entries := by
  induction entries with
  | nil => rfl
  | cons hd tl ih =>
    obtain ⟨a, b⟩ := hd
    simp only [List.map_cons, List.nodup_cons] at h
    simp only [lastOccurrence, firstOccurrence]
    by_cases hk : a = key
    · subst hk
      have := (lastOccurrence_eq_none a tl).mpr h.1
      simp [this]
    · rw [ih h.2]
      cases firstOccurrence key tl <;> simp [hk]

/-! ## The relay handler -/

theorem action_calls (keys : FormikKeys) (entries : FormDataEntries)
    (fetch : FetchCall → Except JsError Response) :
    (action (.ok keys) (.ok entries) fetch).calls =
      [providerCall (buildPayload keys (Object.fromEntries entries))] := by
  simp only [action]
  split <;> rfl

theorem action_outcome (keys : FormikKeys) (entries : FormDataEntries)
    (fetch : FetchCall → Except JsError Response) :
    (action (.ok keys) (.ok entries) fetch).outcome =
      match guarded (fetch (providerCall (buildPayload keys (Object.fromEntries entries)))) with
      | .ok result => .ok result
      | .error error => .ok (failureResult error.message) := by
  simp only [action]
  split <;> simp_all [failureResult, json]

theorem guarded_not_ok (ct : Option String) (j : Except JsError JsonValue)
    (t : Except JsError String) :
    ∃ e, guarded (.ok ⟨false, ct, j, t⟩) = .error e := by
  have h : guarded (.ok ⟨false, ct, j, t⟩) =
      match readBody ct ⟨false, ct, j, t⟩ with
      | .error e => .error e
      | .ok errorData =>
        .error (newError (if errorData.truthy then errorData else .str "Failed to send email")) :=
    rfl
  rw [h]
  cases readBody ct ⟨false, ct, j, t⟩ with
  | error e => exact ⟨e, rfl⟩
  | ok errorData => exact ⟨_, rfl⟩

/-- Claim C1, as the code behaves: when the provider answers with a success status and
no content-type header, whatever its body, `action` runs into the `TypeError` of
reading `includes` off `null`, and answers with status 500 and the failure envelope
carrying that error message; it never reads the body and never reports success. -/
theorem action_ok_without_content_type (keys : FormikKeys) (entries : FormDataEntries)
    (j : Except JsError JsonValue) (t : Except JsError String) :
    (action (.ok keys) (.ok entries) (fun _ => .ok ⟨true, none, j, t⟩)).outcome =
      .ok (failureResult "Cannot read properties of null (reading \x27includes\x27)") := by
  rw [action_outcome]
  rfl

/-- Claim C2, refuted as stated: an exception thrown by `getFormikKeys`, or by
`request.formData()`, leaves `action` uncaught, and no provider call is made. -/
theorem action_unguarded_exception_propagates :
    (action (.error ⟨"FORMIK keys are not configured"⟩) (.ok [("user_name", "Ada")])
        (fun _ => .ok ⟨true, some "text/plain", .error ⟨"not JSON"⟩, .ok "OK"⟩)).outcome
      = .error ⟨"FORMIK keys are not configured"⟩
    ∧ (action (.ok ⟨some "service", some "template", some "key"⟩)
        (.error ⟨"Could not parse content as FormData."⟩)
        (fun _ => .ok ⟨true, some "text/plain", .error ⟨"not JSON"⟩, .ok "OK"⟩)).outcome
      = .error ⟨"Could not parse content as FormData."⟩ :=
  ⟨rfl, rfl⟩

/-- Claim C2, amended: once `getFormikKeys` and `request.formData()` have returned,
`action` always returns an envelope, with status 200 and `success: true` or with status
500 and `success: false`, whatever the provider `fetch` and the body readers do; every
exception thrown in the guarded section becomes the failure envelope with its message
and status 500. An exception of `getFormikKeys` or of `request.formData()` propagates
to the caller before any provider call. -/
theorem action_guarded_section_total (keys : FormikKeys) (entries : FormDataEntries)
    (fetch : FetchCall → Except JsError Response) :
    (∃ result, (action (.ok keys) (.ok entries) fetch).outcome = .ok result
      ∧ ((result.status = 200 ∧ result.data.success = true)
        ∨ (result.status = 500 ∧ result.data.success = false)))
    ∧ (∀ e, guarded (fetch (providerCall (buildPayload keys (Object.fromEntries entries))))
          = .error e →
        (action (.ok keys) (.ok entries) fetch).outcome = .ok (failureResult e.message))
    ∧ (∀ e formData, action (.error e) formData fetch = ⟨[], .error e⟩)
    ∧ (∀ e, action (.ok keys) (.error e) fetch = ⟨[], .error e⟩) := by
  refine ⟨?_, ?_, fun _ _ => rfl, fun _ => rfl⟩
  · rw [action_outcome]
    cases h : guarded (fetch (providerCall (buildPayload keys (Object.fromEntries entries)))) with
    | error e => exact ⟨_, rfl, Or.inr ⟨rfl, rfl⟩⟩
    | ok result =>
      refine ⟨result, rfl, ?_⟩
      revert h
      generalize fetch (providerCall (buildPayload keys (Object.fromEntries entries))) = fetched
      intro h
      cases fetched with
      | error e => simp [guarded] at h
      | ok response =>
        simp only [guarded] at h
        split at h
        · split at h
          · simp at h
          · simp only [Except.ok.injEq] at h
            subst h
            exact Or.inl ⟨rfl, rfl⟩
        · split at h <;> simp at h
  · intro e h
    rw [action_outcome, h]

/-- Witness for `action_guarded_section_total`: a provider that cannot be reached. -/
theorem action_guarded_section_total_witness :
    (action (.ok ⟨some "service", some "template", some "key"⟩) (.ok [("user_name", "Ada")])
        (fun _ => .error ⟨"fetch failed"⟩)).outcome = .ok (failureResult "fetch failed") :=
  (action_guarded_section_total ⟨some "service", some "template", some "key"⟩
    [("user_name", "Ada")] (fun _ => .error ⟨"fetch failed"⟩)).2.1 ⟨"fetch failed"⟩ rfl

/-- Claim C3, refuted as stated: with `user_name` submitted twice, the provider call
carries the value of the second entry, not of the first. -/
theorem action_duplicate_key_not_first :
    firstOccurrence "user_name"
        [("user_name", "first"), ("user_email", "a@b.co"), ("message", "hi"),
          ("user_name", "second")] = some "first"
    ∧ (action (.ok ⟨some "service", some "template", some "key"⟩)
        (.ok [("user_name", "first"), ("user_email", "a@b.co"), ("message", "hi"),
          ("user_name", "second")])
        (fun _ => .ok ⟨true, some "text/plain", .error ⟨"not JSON"⟩, .ok "OK"⟩)).calls
      = [providerCall ⟨some "service", some "template", some "key",
          ⟨some "second", some "a@b.co", some "hi"⟩⟩] :=
  ⟨rfl, rfl⟩

/-- Claim C3, amended: for every list of form entries, the value `action` places in
`template_params` for each of `user_name`, `user_email` and `message` is the value of
the last entry with that key (absent when there is none). -/
theorem action_template_params_last_occurrence (keys : FormikKeys)
    (entries : FormDataEntries) (fetch : FetchCall → Except JsError Response) :
    (action (.ok keys) (.ok entries) fetch).calls =
      [providerCall
        { service_id := keys.SERVICE_ID
          template_id := keys.TEMPLATE_ID
          user_id := keys.PUBLIC_KEY
          template_params :=
            { user_name := lastOccurrence "user_name" entries
              user_email := lastOccurrence "user_email" entries
              message := lastOccurrence "message" entries } }] := by
  rw [action_calls]
  simp only [buildPayload, get_fromEntries]

/-- Claim C4, refuted as stated: a success status with a JSON content type and a body
that is not JSON makes `response.json()` throw, and `action` answers 500 with the
failure envelope, not 200. -/
theorem action_ok_malformed_json_is_500 :
    (action (.ok ⟨some "service", some "template", some "key"⟩) (.ok [("user_name", "Ada")])
        (fun _ => .ok ⟨true, some "application/json",
          .error ⟨"Unexpected token < in JSON at position 0"⟩, .ok "<html>"⟩)).outcome
      = .ok (failureResult "Unexpected token < in JSON at position 0")
    ∧ (failureResult "Unexpected token < in JSON at position 0").status = 500
    ∧ (failureResult "Unexpected token < in JSON at position 0").data.success = false :=
  ⟨rfl, rfl, rfl⟩

/-- Claim C4, amended: for a provider response with a success status and a content-type
header, `action` returns status 200 with `success: true` and, as `response`, the body
parsed as JSON when the content type contains `application/json` and the raw text
otherwise, provided that reading the body succeeds; when the reader throws, `action`
returns status 500 with the failure envelope carrying the reader's message. -/
theorem action_ok_with_content_type (keys : FormikKeys) (entries : FormDataEntries)
    (ct : String) (j : Except JsError JsonValue) (t : Except JsError String) :
    (∀ body, includes ct "application/json" = true → j = .ok body →
      (action (.ok keys) (.ok entries) (fun _ => .ok ⟨true, some ct, j, t⟩)).outcome
        = .ok (successResult body))
    ∧ (∀ text, includes ct "application/json" = false → t = .ok text →
      (action (.ok keys) (.ok entries) (fun _ => .ok ⟨true, some ct, j, t⟩)).outcome
        = .ok (successResult (.str text)))
    ∧ (∀ e, includes ct "application/json" = true → j = .error e →
      (action (.ok keys) (.ok entries) (fun _ => .ok ⟨true, some ct, j, t⟩)).outcome
        = .ok (failureResult e.message))
    ∧ (∀ e, includes ct "application/json" = false → t = .error e →
      (action (.ok keys) (.ok entries) (fun _ => .ok ⟨true, some ct, j, t⟩)).outcome
        = .ok (failureResult e.message)) := by
  refine ⟨?_, ?_, ?_, ?_⟩ <;> intro x hct hx <;> subst hx <;> rw [action_outcome] <;>
    simp [guarded, readBody, hct, successResult, failureResult, json, Except.map]

/-- Witness for `action_ok_with_content_type`: the provider's plain-text `OK`. -/
theorem action_ok_with_content_type_witness :
    (action (.ok ⟨some "service", some "template", some "key"⟩) (.ok [("user_name", "Ada")])
        (fun _ => .ok ⟨true, some "text/html; charset=utf-8", .error ⟨"not JSON"⟩,
          .ok "OK"⟩)).outcome = .ok (successResult (.str "OK")) :=
  (action_ok_with_content_type ⟨some "service", some "template", some "key"⟩
    [("user_name", "Ada")] "text/html; charset=utf-8" (.error ⟨"not JSON"⟩) (.ok "OK")).2.1
    "OK" (by decide) rfl

/-- Claim C5, refuted as stated: on a non-success status the error detail is not always
the provider's body. An empty text body is replaced by `Failed to send email`, and a
parsed JSON object is reported as the text `[object Object]`. -/
theorem action_error_detail_not_body :
    (action (.ok ⟨some "service", some "template", some "key"⟩) (.ok [("user_name", "Ada")])
        (fun _ => .ok ⟨false, some "text/plain", .error ⟨"not JSON"⟩, .ok ""⟩)).outcome
      = .ok (failureResult "Failed to send email")
    ∧ (action (.ok ⟨some "service", some "template", some "key"⟩) (.ok [("user_name", "Ada")])
        (fun _ => .ok ⟨false, some "application/json",
          .ok (.obj [("error", .str "quota exceeded")]),
          .ok "\x7b\"error\":\"quota exceeded\"\x7d"⟩)).outcome
      = .ok (failureResult "[object Object]") :=
  ⟨rfl, rfl⟩

/-- Claim C5, amended: for every provider response with a non-success status `action`
returns status 500 with the failure envelope. When the content type is present and not
JSON and the text is read, the error detail is that text, or `Failed to send email`
when the text is empty; the same holds for a JSON content type whose body parses to a
JSON string. Every exception raised in the guarded section gives status 500 with the
exception's message as the error detail. -/
theorem action_not_ok_is_500 (keys : FormikKeys) (entries : FormDataEntries)
    (ct : Option String) (j : Except JsError JsonValue) (t : Except JsError String) :
    (∃ message,
      (action (.ok keys) (.ok entries) (fun _ => .ok ⟨false, ct, j, t⟩)).outcome
        = .ok (failureResult message))
    ∧ (∀ c text, ct = some c → includes c "application/json" = false → t = .ok text →
      (action (.ok keys) (.ok entries) (fun _ => .ok ⟨false, ct, j, t⟩)).outcome
        = .ok (failureResult (if text = "" then "Failed to send email" else text)))
    ∧ (∀ c text, ct = some c → includes c "application/json" = true → j = .ok (.str text) →
      (action (.ok keys) (.ok entries) (fun _ => .ok ⟨false, ct, j, t⟩)).outcome
        = .ok (failureResult (if text = "" then "Failed to send email" else text)))
    ∧ (∀ (fetch : FetchCall → Except JsError Response) e,
      guarded (fetch (providerCall (buildPayload keys (Object.fromEntries entries))))
          = .error e →
        (action (.ok keys) (.ok entries) fetch).outcome = .ok (failureResult e.message)) := by
  refine ⟨?_, ?_, ?_, ?_⟩
  · obtain ⟨e, he⟩ := guarded_not_ok ct j t
    exact ⟨e.message, by rw [action_outcome, he]⟩
  · intro c text hc hct ht
    subst hc ht
    rw [action_outcome]
    by_cases h : text = "" <;>
      simp [guarded, readBody, hct, failureResult, Except.map, JsonValue.truthy, newError,
        JsonValue.toStr, h]
  · intro c text hc hct hj
    subst hc hj
    rw [action_outcome]
    by_cases h : text = "" <;>
      simp [guarded, readBody, hct, failureResult, JsonValue.truthy, newError,
        JsonValue.toStr, h]
  · intro fetch e h
    rw [action_outcome, h]

/-- Witness for `action_not_ok_is_500`: the provider rejects the call with a text
body. -/
theorem action_not_ok_is_500_witness :
    (action (.ok ⟨some "service", some "template", some "key"⟩) (.ok [("user_name", "Ada")])
        (fun _ => .ok ⟨false, some "text/plain", .error ⟨"not JSON"⟩,
          .ok "The public key is required"⟩)).outcome
      = .ok (failureResult "The public key is required") :=
  (action_not_ok_is_500 ⟨some "service", some "template", some "key"⟩ [("user_name", "Ada")]
    (some "text/plain") (.error ⟨"not JSON"⟩) (.ok "The public key is required")).2.1
    "text/plain" "The public key is required" rfl (by decide) rfl

/-- Claim C6: for every configuration and every submitted field map (form entries with
pairwise distinct keys), `action` makes exactly one provider call, a POST to the
provider endpoint with a JSON content type, whose JSON body holds the three
identifiers under `service_id`, `template_id` and `user_id`, and under
`template_params` the submitted values of `user_name`, `user_email` and `message`
unchanged; a field that was not submitted is left out of the body and the call is
made all the same. -/
theorem action_single_provider_call (keys : FormikKeys) (entries : FormDataEntries)
    (fetch : FetchCall → Except JsError Response)
    (hmap : (entries.map Prod.fst).Nodup) :
    (action (.ok keys) (.ok entries) fetch).calls =
      [{ url := "https://api.emailjs.com/api/v1.0/email/send"
         method := "POST"
         headers := [("Content-Type", "application/json")]
         body := .obj (jsonField "service_id" keys.SERVICE_ID
           ++ jsonField "template_id" keys.TEMPLATE_ID
           ++ jsonField "user_id" keys.PUBLIC_KEY
           ++ [("template_params",
                 .obj (jsonField "user_name" (firstOccurrence "user_name" entries)
                   ++ jsonField "user_email" (firstOccurrence "user_email" entries)
                   ++ jsonField "message" (firstOccurrence "message" entries)))]) }] := by
  rw [action_calls]
  simp only [buildPayload, get_fromEntries, lastOccurrence_of_nodup _ _ hmap, providerCall,
    JSON.stringify]

/-- Witness for `action_single_provider_call`: a submission without a `message`
field. -/
theorem action_single_provider_call_witness :
    (action (.ok ⟨some "service", some "template", some "key"⟩)
        (.ok [("user_name", " Ada "), ("user_email", "ada@example.com")])
        (fun _ => .error ⟨"fetch failed"⟩)).calls =
      [{ url := "https://api.emailjs.com/api/v1.0/email/send"
         method := "POST"
         headers := [("Content-Type", "application/json")]
         body := .obj [("service_id", .str "service"), ("template_id", .str "template"),
           ("user_id", .str "key"),
           ("template_params",
             .obj [("user_name", .str " Ada "), ("user_email", .str "ada@example.com")])] }] :=
  action_single_provider_call ⟨some "service", some "template", some "key"⟩
    [("user_name", " Ada "), ("user_email", "ada@example.com")]
    (fun _ => .error ⟨"fetch failed"⟩) (by decide)

/-! ## Soundness of the derivative matcher -/

namespace RegExp

theorem nullable_sound (r : RegExp) (h : nullable r = true) : Matches r [] := by
  induction r with
  | never => simp [nullable] at h
  | eps => exact Matches.eps
  | cls p => simp [nullable] at h
  | alt r s ihr ihs =>
    simp only [nullable, Bool.or_eq_true] at h
    rcases h with h | h
    · exact Matches.altL _ _ _ (ihr h)
    · exact Matches.altR _ _ _ (ihs h)
  | seq r s ihr ihs =>
    simp only [nullable, Bool.and_eq_true] at h
    exact Matches.seq r s [] [] (ihr h.1) (ihs h.2)
  | star r _ => exact Matches.starNil r

theorem deriv_sound (c : Char) (r : RegExp) (w : List Char)
    (h : Matches (deriv c r) w) : Matches r (c :: w) := by
  induction r generalizing w with
  | never => simp only [deriv] at h; cases h
  | eps => simp only [deriv] at h; cases h
  | cls p =>
    simp only [deriv] at h
    by_cases hp : p c = true
    · rw [if_pos hp] at h
      cases h
      exact Matches.cls p c hp
    · rw [if_neg hp] at h
      cases h
  | alt r s ihr ihs =>
    simp only [deriv] at h
    cases h with
    | altL _ _ _ h => exact Matches.altL _ _ _ (ihr _ h)
    | altR _ _ _ h => exact Matches.altR _ _ _ (ihs _ h)
  | seq r s ihr ihs =>
    simp only [deriv] at h
    by_cases hn : nullable r = true
    · rw [if_pos hn] at h
      cases h with
      | altL _ _ _ h =>
        cases h with
        | seq _ _ u v hu hv => exact Matches.seq r s (c :: u) v (ihr _ hu) hv
      | altR _ _ _ h => exact Matches.seq r s [] (c :: w) (nullable_sound r hn) (ihs _ h)
    · rw [if_neg hn] at h
      cases h with
      | seq _ _ u v hu hv => exact Matches.seq r s (c :: u) v (ihr _ hu) hv
  | star r ih =>
    simp only [deriv] at h
    cases h with
    | seq _ _ u v hu hv => exact Matches.starCons r (c :: u) v (ih _ hu) hv

theorem test_sound (r : RegExp) (w : List Char) (h : test r w = true) : Matches r w := by
  induction w generalizing r with
  | nil => exact nullable_sound r h
  | cons c cs ih => exact deriv_sound c r cs (ih _ h)

theorem matches_cls {p : Char → Bool} {w : List Char} (h : Matches (cls p) w) :
    ∃ c, w = [c] ∧ p c = true := by
  cases h with
  | cls _ c hc => exact ⟨c, rfl, hc⟩

theorem matches_seq {r s : RegExp} {w : List Char} (h : Matches (seq r s) w) :
    ∃ u v, w = u ++ v ∧ Matches r u ∧ Matches s v := by
  cases h with
  | seq _ _ u v hu hv => exact ⟨u, v, rfl, hu, hv⟩

theorem matches_alt {r s : RegExp} {w : List Char} (h : Matches (alt r s) w) :
    Matches r w ∨ Matches s w := by
  cases h with
  | altL _ _ _ h => exact Or.inl h
  | altR _ _ _ h => exact Or.inr h

theorem matches_star_cls {p : Char → Bool} {r : RegExp} {w : List Char}
    (h : Matches r w) (hr : r = star (cls p)) : ∀ c ∈ w, p c = true := by
  induction h with
  | eps => cases hr
  | cls _ _ _ => cases hr
  | altL _ _ _ _ _ => cases hr
  | altR _ _ _ _ _ => cases hr
  | seq _ _ _ _ _ _ _ _ => cases hr
  | starNil _ => simp
  | starCons r' u v hu _ _ ihv =>
    cases hr
    obtain ⟨c, rfl, hc⟩ := matches_cls hu
    intro x hx
    simp only [List.singleton_append, List.mem_cons] at hx
    rcases hx with rfl | hx
    · exact hc
    · exact ihv rfl x hx

end RegExp

/-! ## The shape of the strings the email pattern accepts -/

open RegExp

theorem endsOffAt_seq {r s : RegExp} (hs : ∀ v, Matches s v → EndsOffAt v) :
    ∀ w, Matches (seq r s) w → EndsOffAt w := by
  intro w h
  obtain ⟨u, v, rfl, _, hv⟩ := matches_seq h
  obtain ⟨init, c, rfl, hc⟩ := hs v hv
  exact ⟨u ++ init, c, by simp, hc⟩

theorem endsOffAt_alt {r s : RegExp} (hr : ∀ v, Matches r v → EndsOffAt v)
    (hs : ∀ v, Matches s v → EndsOffAt v) : ∀ w, Matches (alt r s) w → EndsOffAt w := by
  intro w h
  rcases matches_alt h with h | h
  · exact hr w h
  · exact hs w h

theorem endsOffAt_lit {n : Nat} (hn : n ≠ 64) : ∀ w, Matches (lit n) w → EndsOffAt w := by
  intro w h
  obtain ⟨c, rfl, hc⟩ := matches_cls h
  refine ⟨[], c, rfl, ?_⟩
  simp only [beq_iff_eq] at hc
  omega

theorem letter_ne_at (c : Char) (h : letter c = true) : c.toNat ≠ 64 := by
  simp only [letter, Bool.or_eq_true, Bool.and_eq_true, decide_eq_true_eq] at h
  omega

theorem endsOffAt_letters : ∀ w, Matches (seq (cls letter) (star (cls letter))) w →
    EndsOffAt w := by
  intro w h
  obtain ⟨u, v, rfl, hu, hv⟩ := matches_seq h
  obtain ⟨c, rfl, hc⟩ := matches_cls hu
  have hall := matches_star_cls hv rfl
  rcases List.eq_nil_or_concat v with rfl | ⟨init, d, rfl⟩
  · exact ⟨[], c, rfl, letter_ne_at c hc⟩
  · exact ⟨c :: init, d, by simp, letter_ne_at d (hall d (by simp))⟩

theorem endsOffAt_ipLiteral : ∀ w, Matches ipLiteral w → EndsOffAt w := by
  unfold ipLiteral
  repeat apply endsOffAt_seq
  exact endsOffAt_lit (by decide)

theorem endsOffAt_domainName : ∀ w, Matches domainName w → EndsOffAt w := by
  unfold domainName atLeast2
  apply endsOffAt_seq
  apply endsOffAt_seq
  exact endsOffAt_letters

theorem emailPattern_shape (w : List Char) (h : emailPattern.test w = true) :
    ∃ l a d, w = l ++ a :: d ∧ a.toNat = 64 ∧ EndsOffAt d := by
  have hm := test_sound _ _ h
  unfold emailPattern at hm
  obtain ⟨l, v, rfl, _, hv⟩ := matches_seq hm
  obtain ⟨x, d, rfl, hx, hd⟩ := matches_seq hv
  obtain ⟨a, rfl, ha⟩ := matches_cls hx
  refine ⟨l, a, d, by simp, ?_, endsOffAt_alt endsOffAt_ipLiteral endsOffAt_domainName d hd⟩
  simpa using ha

theorem toNat_eq_at (c : Char) (h : c.toNat = 64) : c = '@' := by
  have h2 := Char.ofNat_toNat c
  rw [h] at h2
  exact h2.symm

theorem emailPattern_has_at (w : List Char) (h : emailPattern.test w = true) : '@' ∈ w := by
  obtain ⟨l, a, d, rfl, ha, _⟩ := emailPattern_shape w h
  rw [← toNat_eq_at a ha]
  simp

theorem emailPattern_last_ne_at (w : List Char) (h : emailPattern.test w = true) :
    w.getLast? ≠ some '@' := by
  obtain ⟨l, a, d, rfl, _, init, c, rfl, hc⟩ := emailPattern_shape w h
  have e : l ++ a :: (init ++ [c]) = (l ++ a :: init) ++ [c] := by simp
  rw [e, List.getLast?_concat]
  intro hx
  simp only [Option.some.injEq] at hx
  subst hx
  exact hc (by decide)

/-- The matcher on sample addresses: a plain address, an address with a dotted local
part and an address literal, and a quoted local part are accepted; a domain without a
dot, a one-letter top-level domain, a blank in the local part, a missing local part
and a missing domain are rejected. -/
theorem emailPattern_samples :
    emailPattern.test "ada@example.com".data = true
    ∧ emailPattern.test "ada.lovelace@[10.0.0.1]".data = true
    ∧ emailPattern.test "\x22ada lovelace\x22@example.co.uk".data = true
    ∧ emailPattern.test "ada@example".data = false
    ∧ emailPattern.test "ada@example.c".data = false
    ∧ emailPattern.test "ada lovelace@example.com".data = false
    ∧ emailPattern.test "@example.com".data = false
    ∧ emailPattern.test "ada@".data = false := by
  decide

/-! ## The validation schema -/

theorem length_ne_zero_of_ne_empty (s : String) (h : s ≠ "") : (s.length != 0) = true := by
  have hd : s.data ≠ [] := fun hd => h (String.ext_iff.mpr hd)
  have hl : s.data.length ≠ 0 := fun hl => hd (List.length_eq_zero.mp hl)
  have e : s.length = s.data.length := rfl
  rw [e, bne_iff_ne]
  exact hl

theorem required_field_error (message s : String) :
    (Yup.validate [Yup.required message] (prepareDataForValidation s)).head? =
      if s = "" then some message else none := by
  by_cases h : s = ""
  · subst h
    rfl
  · have hl := length_ne_zero_of_ne_empty s h
    have e : (Yup.required message).test (some s) = true := hl
    simp [Yup.validate, prepareDataForValidation, h, e]

theorem user_email_error (rEmail : String → Bool) (s : String) :
    (Yup.validate (userEmailSchema rEmail) (prepareDataForValidation s)).head? =
      if s = "" then some "* Email field is required"
      else if rEmail s = false then some "Invalid email address"
      else if emailPattern.test s.data = false then some "* Please enter a valid email address"
      else none := by
  by_cases h : s = ""
  · subst h
    rfl
  · have hl := length_ne_zero_of_ne_empty s h
    have hb : (s == "") = false := by simpa using h
    have e1 : (Yup.email rEmail "Invalid email address").test (some s) = rEmail s := by
      simp [Yup.email, hb]
    have e2 : (Yup.required "* Email field is required").test (some s) = true := hl
    have e3 : (Yup.matches emailPattern "* Please enter a valid email address").test (some s)
        = emailPattern.test s.data := rfl
    cases h1 : rEmail s <;> cases h2 : emailPattern.test s.data <;>
      simp [Yup.validate, userEmailSchema, prepareDataForValidation, h, List.filter,
        e1, e2, e3, h1, h2] <;> rfl

theorem validationSchema_eq (rEmail : String → Bool) (values : FormValues) :
    validationSchema rEmail values =
      { user_name := if values.user_name = "" then some "* Name field is required" else none
        user_email :=
          if values.user_email = "" then some "* Email field is required"
          else if rEmail values.user_email = false then some "Invalid email address"
          else if emailPattern.test values.user_email.data = false then
            some "* Please enter a valid email address"
          else none
        message :=
          if values.message = "" then some "* Message field is required" else none } := by
  simp only [validationSchema, userNameSchema, messageSchema, required_field_error,
    user_email_error]

/-- End-to-end scenario 1 of the form: a well-formed submission has no errors, for a
library check that asks for an at sign. -/
theorem validationSchema_valid_sample :
    validationSchema (fun s => s.data.contains '@') ⟨"Ada", "ada@example.com", "Hi"⟩
      = ⟨none, none, none⟩ := by
  decide

/-- Claim C7: the errors of the validation schema have an entry for `user_name` exactly
when it is empty, for `message` exactly when it is empty, and for `user_email` exactly
when it is empty or not of valid email shape, that is, rejected by the library email
check or by the pattern of line 73; every address without an at sign, and every address
ending in an at sign, is flagged; the errors are empty exactly when all three fields
are valid. -/
theorem validationSchema_flags (rEmail : String → Bool) (values : FormValues) :
    ((validationSchema rEmail values).user_name.isSome = true ↔ values.user_name = "")
    ∧ ((validationSchema rEmail values).message.isSome = true ↔ values.message = "")
    ∧ ((validationSchema rEmail values).user_email.isSome = true ↔
        (values.user_email = "" ∨ validEmailShape rEmail values.user_email = false))
    ∧ ('@' ∉ values.user_email.data → (validationSchema rEmail values).user_email.isSome = true)
    ∧ (values.user_email.data.getLast? = some '@' →
        (validationSchema rEmail values).user_email.isSome = true)
    ∧ (validationSchema rEmail values = ⟨none, none, none⟩ ↔
        (values.user_name ≠ "" ∧ values.message ≠ "" ∧ values.user_email ≠ ""
          ∧ validEmailShape rEmail values.user_email = true)) := by
  have key : (validationSchema rEmail values).user_email.isSome = true ↔
      (values.user_email = "" ∨ validEmailShape rEmail values.user_email = false) := by
    rw [validationSchema_eq]
    by_cases h : values.user_email = "" <;> cases h1 : rEmail values.user_email <;>
      cases h2 : emailPattern.test values.user_email.data <;>
      simp [validEmailShape, h, h1, h2]
  refine ⟨?_, ?_, key, ?_, ?_, ?_⟩
  · rw [validationSchema_eq]
    by_cases h : values.user_name = "" <;> simp [h]
  · rw [validationSchema_eq]
    by_cases h : values.message = "" <;> simp [h]
  · intro hat
    refine key.mpr (Or.inr ?_)
    cases h2 : emailPattern.test values.user_email.data with
    | false => simp [validEmailShape, h2]
    | true => exact absurd (emailPattern_has_at _ h2) hat
  · intro hlast
    refine key.mpr (Or.inr ?_)
    cases h2 : emailPattern.test values.user_email.data with
    | false => simp [validEmailShape, h2]
    | true => exact absurd hlast (emailPattern_last_ne_at _ h2)
  · rw [validationSchema_eq]
    by_cases h : values.user_name = "" <;> by_cases h' : values.message = "" <;>
      by_cases h'' : values.user_email = "" <;> cases h1 : rEmail values.user_email <;>
      cases h2 : emailPattern.test values.user_email.data <;>
      simp [validEmailShape, h, h', h'', h1, h2]

/-- Witness for `validationSchema_flags`: an address without an at sign is flagged
although the library check is taken to accept everything. -/
theorem validationSchema_flags_witness :
    (validationSchema (fun _ => true) ⟨"Ada", "ada.example.com", "Hi"⟩).user_email.isSome
      = true :=
  (validationSchema_flags (fun _ => true) ⟨"Ada", "ada.example.com", "Hi"⟩).2.2.2.1
    (by decide)

/-- Claim C8, refuted as stated: the three `required` messages and the pattern message
start with an asterisk and a blank, and an address without an at sign, which the
library email check rejects, gets the message `Invalid email address`. -/
theorem validationSchema_messages_differ :
    validationSchema (fun s => s.data.contains '@') ⟨"", "", ""⟩ =
      ⟨some "* Name field is required", some "* Email field is required",
        some "* Message field is required"⟩
    ∧ (validationSchema (fun s => s.data.contains '@') ⟨"", "", ""⟩).user_name
        ≠ some "Name field is required"
    ∧ (validationSchema (fun s => s.data.contains '@') ⟨"Ada", "ada", "Hi"⟩).user_email
        = some "Invalid email address"
    ∧ (validationSchema (fun s => s.data.contains '@') ⟨"Ada", "ada@example", "Hi"⟩).user_email
        = some "* Please enter a valid email address" := by
  refine ⟨by decide, by decide, by decide, by decide⟩

/-- Claim C8, amended: the message reported is `* Name field is required` for an empty
name, `* Message field is required` for an empty message, `* Email field is required`
for an empty email, `Invalid email address` for a non-empty email that the library
email check rejects, and `* Please enter a valid email address` for a non-empty email
that passes the library check and does not match the pattern of line 73. -/
theorem validationSchema_messages (rEmail : String → Bool) (values : FormValues) :
    (values.user_name = "" →
      (validationSchema rEmail values).user_name = some "* Name field is required")
    ∧ (values.message = "" →
      (validationSchema rEmail values).message = some "* Message field is required")
    ∧ (values.user_email = "" →
      (validationSchema rEmail values).user_email = some "* Email field is required")
    ∧ (values.user_email ≠ "" → rEmail values.user_email = false →
      (validationSchema rEmail values).user_email = some "Invalid email address")
    ∧ (values.user_email ≠ "" → rEmail values.user_email = true →
      emailPattern.test values.user_email.data = false →
      (validationSchema rEmail values).user_email
        = some "* Please enter a valid email address") := by
  rw [validationSchema_eq]
  refine ⟨?_, ?_, ?_, ?_, ?_⟩
  · intro h; simp [h]
  · intro h; simp [h]
  · intro h; simp [h]
  · intro h h1; simp [h, h1]
  · intro h h1 h2; simp [h, h1, h2]

/-- Witness for `validationSchema_messages`: an empty name. -/
theorem validationSchema_messages_witness :
    (validationSchema (fun s => s.data.contains '@') ⟨"", "ada@example.com", "Hi"⟩).user_name
      = some "* Name field is required" :=
  (validationSchema_messages (fun s => s.data.contains '@')
    ⟨"", "ada@example.com", "Hi"⟩).1 rfl

/-! ## The submit callback and the timer queue -/

theorem onSubmitTry_of_success (fetched : Except JsError RelayResponse) (st : ContactState)
    (h : httpSuccess fetched = true) :
    onSubmitTry fetched st =
      .ok { messageSent := some true, messageReceived := true, values := initialValues,
            isSubmitting := false, now := st.now, timers := st.timers ++ [st.now + 5000] } := by
  cases fetched with
  | error e => simp [httpSuccess] at h
  | ok response =>
    simp only [httpSuccess] at h
    simp [onSubmitTry, h, setTimeout]

theorem onSubmitTry_of_failure (fetched : Except JsError RelayResponse) (st : ContactState)
    (h : httpSuccess fetched = false) : ∃ e, onSubmitTry fetched st = .error e := by
  cases fetched with
  | error e => exact ⟨e, rfl⟩
  | ok response =>
    simp only [httpSuccess] at h
    simp only [onSubmitTry, h]
    cases response.json with
    | error e => exact ⟨e, rfl⟩
    | ok errorResponse =>
      cases h2 : errorResponse.error with
      | error e => exact ⟨e, by simp [h2]⟩
      | ok v =>
        cases v with
        | none => exact ⟨⟨""⟩, by simp [h2]⟩
        | some message => exact ⟨newError message, by simp [h2]⟩

theorem onSubmit_eq (fetched : Except JsError RelayResponse) (st : ContactState) :
    onSubmit fetched st =
      { messageSent := some true, messageReceived := httpSuccess fetched,
        values := if httpSuccess fetched then initialValues else st.values,
        isSubmitting := false, now := st.now, timers := st.timers ++ [st.now + 5000] } := by
  cases h : httpSuccess fetched with
  | true => simp [onSubmit, onSubmitTry_of_success fetched st h]
  | false =>
    obtain ⟨e, he⟩ := onSubmitTry_of_failure fetched st h
    simp [onSubmit, he, setTimeout]

theorem foldl_timerCallback (due : List Nat) (st : ContactState) :
    due.foldl (fun s _ => timerCallback s) st =
      if due = [] then st else { st with messageSent := some false } := by
  induction due generalizing st with
  | nil => rfl
  | cons t rest ih =>
    simp only [List.foldl_cons, ih]
    by_cases h : rest = [] <;> simp [h, timerCallback]

theorem advance_eq (dt : Nat) (st : ContactState) :
    advance dt st =
      { messageSent :=
          if st.timers.filter (fun t => t ≤ st.now + dt) = [] then st.messageSent
          else some false
        messageReceived := st.messageReceived
        values := st.values
        isSubmitting := st.isSubmitting
        now := st.now + dt
        timers := st.timers.filter (fun t => st.now + dt < t) } := by
  simp only [advance, foldl_timerCallback]
  by_cases h : st.timers.filter (fun t => t ≤ st.now + dt) = [] <;> simp [h]

/-- Claim C9: whatever the request of `onSubmit` does, the callback leaves
`messageSent = true`, `isSubmitting = false` and exactly one new timer, due 5000 ms
later, whose firing sets `messageSent` to false; `messageReceived` is true and the
three values are reset to empty strings exactly when the relay answered with an
HTTP-success status, the text then being `Message Sent`; in every other case (a
non-success status, a request that throws, an error body that does not parse)
`messageReceived` is false, the values are unchanged and the text is
`Failed: Please try again later`. -/
theorem onSubmit_settles (fetched : Except JsError RelayResponse) (st : ContactState) :
    (onSubmit fetched st).messageSent = some true
    ∧ (onSubmit fetched st).isSubmitting = false
    ∧ (onSubmit fetched st).timers = st.timers ++ [st.now + 5000]
    ∧ (((onSubmit fetched st).messageReceived = true
          ∧ (onSubmit fetched st).values = ⟨"", "", ""⟩) ↔ httpSuccess fetched = true)
    ∧ (httpSuccess fetched = true → alertText (onSubmit fetched st) = "Message Sent")
    ∧ (httpSuccess fetched = false →
        (onSubmit fetched st).messageReceived = false
        ∧ (onSubmit fetched st).values = st.values
        ∧ alertText (onSubmit fetched st) = "Failed: Please try again later")
    ∧ (advance 5000 (onSubmit fetched st)).messageSent = some false := by
  refine ⟨?_, ?_, ?_, ?_, ?_, ?_, ?_⟩
  · rw [onSubmit_eq]
  · rw [onSubmit_eq]
  · rw [onSubmit_eq]
  · rw [onSubmit_eq]
    cases httpSuccess fetched <;> simp [initialValues]
  · intro h
    rw [onSubmit_eq, h]
    rfl
  · intro h
    rw [onSubmit_eq, h]
    exact ⟨rfl, rfl, rfl⟩
  · rw [advance_eq, onSubmit_eq]
    simp [List.filter_append]

/-- Witness for `onSubmit_settles`: the relay answers 500 with a JSON error body, and
the values typed by the user stay in the form. -/
theorem onSubmit_settles_witness :
    (onSubmit (.ok ⟨false, .ok (.obj [("error", .str "quota exceeded")])⟩)
        { messageSent := none, messageReceived := false,
          values := ⟨"Ada", "ada@example.com", "Hi"⟩, isSubmitting := true, now := 0,
          timers := [] }).messageReceived = false
    ∧ (onSubmit (.ok ⟨false, .ok (.obj [("error", .str "quota exceeded")])⟩)
        { messageSent := none, messageReceived := false,
          values := ⟨"Ada", "ada@example.com", "Hi"⟩, isSubmitting := true, now := 0,
          timers := [] }).values = ⟨"Ada", "ada@example.com", "Hi"⟩
    ∧ alertText (onSubmit (.ok ⟨false, .ok (.obj [("error", .str "quota exceeded")])⟩)
        { messageSent := none, messageReceived := false,
          values := ⟨"Ada", "ada@example.com", "Hi"⟩, isSubmitting := true, now := 0,
          timers := [] }) = "Failed: Please try again later" :=
  (onSubmit_settles (.ok ⟨false, .ok (.obj [("error", .str "quota exceeded")])⟩)
    { messageSent := none, messageReceived := false,
      values := ⟨"Ada", "ada@example.com", "Hi"⟩, isSubmitting := true, now := 0,
      timers := [] }).2.2.2.2.2.1 rfl

/-- Claim C10, refuted as stated: submission A settles at time 0 and submission B at
time 1000; at time 5500, only 4500 ms after B settled and with B's own timer (due at
6000) still pending, the timer of A has fired, `messageSent` is false and the alert
carries the class that moves it out of view. -/
theorem stale_timer_overrides_newer_outcome :
    advance 4500
        (onSubmit (.ok ⟨false, .ok (.obj [("error", .str "quota exceeded")])⟩)
          (advance 1000 (onSubmit (.ok ⟨true, .ok .null⟩)
            { messageSent := none, messageReceived := false,
              values := ⟨"Ada", "ada@example.com", "Hi"⟩, isSubmitting := true, now := 0,
              timers := [] })))
      = { messageSent := some false, messageReceived := false, values := ⟨"", "", ""⟩,
          isSubmitting := false, now := 5500, timers := [6000] }
    ∧ alertClass (advance 4500
        (onSubmit (.ok ⟨false, .ok (.obj [("error", .str "quota exceeded")])⟩)
          (advance 1000 (onSubmit (.ok ⟨true, .ok .null⟩)
            { messageSent := none, messageReceived := false,
              values := ⟨"Ada", "ada@example.com", "Hi"⟩, isSubmitting := true, now := 0,
              timers := [] })))) = "bounceOutRight" := by
  decide

/-- Claim C10, amended: timers are never cancelled. When submission A settles with no
timer pending and submission B settles `d` ms later, `d < 5000`, then `e` ms after B
settled `messageSent` is true exactly when `d + e < 5000`: the timer scheduled by A
fires 5000 ms after A settled and sets `messageSent` to false although B has settled
since, so B's outcome stays visible for `5000 - d` ms only, and B's own timer is still
pending when that happens. -/
theorem stale_timer_fires_on_newer_outcome (st : ContactState)
    (rA rB : Except JsError RelayResponse) (d e : Nat)
    (hidle : st.timers = []) (hd : d < 5000) :
    ((advance e (onSubmit rB (advance d (onSubmit rA st)))).messageSent = some true ↔
      d + e < 5000)
    ∧ (5000 ≤ d + e →
      (advance e (onSubmit rB (advance d (onSubmit rA st)))).messageSent = some false)
    ∧ (5000 ≤ d + e → e < 5000 →
      (advance e (onSubmit rB (advance d (onSubmit rA st)))).timers = [st.now + d + 5000]) := by
  have h1 : ¬ (st.now + 5000 ≤ st.now + d) := by omega
  have h2 : st.now + d < st.now + 5000 := by omega
  have h3 : ¬ (st.now + d + 5000 ≤ st.now + d + e) ↔ e < 5000 := by omega
  have h4 : st.now + 5000 ≤ st.now + d + e ↔ 5000 ≤ d + e := by omega
  have h5 : st.now + d + e < st.now + 5000 ↔ d + e < 5000 := by omega
  have h6 : st.now + d + e < st.now + d + 5000 ↔ e < 5000 := by omega
  simp only [advance_eq, onSubmit_eq, hidle, List.nil_append, List.filter_cons, List.filter_nil,
    List.cons_append, h1, h2, decide_True, decide_False, if_true, if_false, Bool.false_eq_true]
  by_cases hde : d + e < 5000
  · have he : e < 5000 := by omega
    have hn : ¬ (5000 ≤ d + e) := by omega
    simp [h4, h5, h6, hde, he, hn]
  · have hn : 5000 ≤ d + e := by omega
    by_cases he : e < 5000
    · have he2 : ¬ (5000 ≤ e) := by omega
      simp [h4, h5, h6, hde, he, hn, he2]
    · have he2 : 5000 ≤ e := by omega
      simp [h4, h5, h6, hde, he, hn, he2]

/-- Witness for `stale_timer_fires_on_newer_outcome`: B settles 1000 ms after A, and
4500 ms later its outcome is hidden. -/
theorem stale_timer_fires_on_newer_outcome_witness :
    (advance 4500 (onSubmit (.ok ⟨true, .ok .null⟩)
      (advance 1000 (onSubmit (.ok ⟨true, .ok .null⟩) ContactState.initial)))).messageSent
      = some false :=
  (stale_timer_fires_on_newer_outcome ContactState.initial (.ok ⟨true, .ok .null⟩)
    (.ok ⟨true, .ok .null⟩) 1000 4500 rfl (by decide)).2.1 (by decide)

end Contact
